import Mathlib

/-!
Verification development for the websocket gateway front-end
(`server/ws/src/server_http.ts`, `server/ws/src/stats.ts`,
`server/ws/src/types.ts`).

The TypeScript source is shallowly embedded: each handler becomes a pure
Lean function over an explicit model of its inputs (the decoded token, the
query parameters, the transport state trace, the session-manager registries),
returning the observable effects the handler produces (HTTP status, frames
written, scheduled operations).  External collaborators (`decodeToken`,
`serialize`, the `ws` transport) are modelled by their observable behaviour:
`decodeToken` by an `Option Token` (it either yields a payload or throws),
`serialize` by the format flag it is given and the length of its output.
-/

namespace Gateway

/-! ## Token model (`@hcengineering/server-token`)

`decodeToken` is external; a call site sees either a decoded payload or a
thrown error, so handlers below take `Option Token` (`none` = decode threw). -/

structure WorkspaceIdT where
  name : String
  productId : String
  deriving DecidableEq, Repr

structure TokenExtra where
  admin : Option String
  mode : Option String
  model : Option String
  deriving DecidableEq, Repr

structure Token where
  email : String
  workspace : WorkspaceIdT
  extra : Option TokenExtra
  deriving DecidableEq, Repr

/-- `payload.extra?.admin === 'true'` from the manage/statistics handlers. -/
def Token.isAdmin (t : Token) : Bool :=
  match t.extra with
  | some e => e.admin = some "true"
  | none => false

/-! ## ConnectionSocket.send (`createWebsocketClientSocket`, server_http.ts)

The transport is observed at discrete scheduler ticks: index 0 is the state
when `send` is entered, and since JavaScript is single-threaded the transport
state can only change across an `await`, each iteration of the backpressure
loop (one `await setImmediate`) observes the next index. -/

structure WsObs where
  isOpen : Bool
  bufferedAmount : Nat
  deriving DecidableEq, Repr

/-- The backpressure loop
`while (ws.bufferedAmount > 128 && ws.readyState === ws.OPEN) await setImmediate`:
starting at tick `i`, returns the tick at which the loop exits, or `none`
if `fuel` scheduler ticks are not enough (the call is still suspended). -/
def drainLoop (trace : Nat → WsObs) : Nat → Nat → Option Nat
  | _, 0 => none
  | i, fuel + 1 =>
    if (trace i).bufferedAmount > 128 ∧ (trace i).isOpen then
      drainLoop trace (i + 1) fuel
    else
      some i

/-- Observable effects of one `ConnectionSocket.send` call. -/
inductive SendOutcome where
  /-- `return 0` on the first line: nothing serialized, no metric, no write. -/
  | earlyZero
  /-- Still suspended in the backpressure loop after the observed ticks. -/
  | suspended
  /-- Reached the transport write at tick `exitTick`:
      `measure('send-data', len)` was recorded, the frame was written with
      the given framing/compression flags, and `send` resolved to `len`
      (or rejected, when the transport reported a write error). -/
  | wrote (exitTick : Nat) (metric : Nat) (framingBinary : Bool)
      (compress : Bool) (serializedBinary : Bool) (rejected : Bool)
      (returned : Option Nat)
  deriving DecidableEq, Repr

/-- `cs.send (ctx, msg, binary, compression)`.
`isClosed` is `cs.isClosed`; `serLen` is the length of `serialize msg binary`;
`writeErr` is whether the transport write callback reports an error. -/
def send (isClosed : Bool) (trace : Nat → WsObs) (binary compression : Bool)
    (serLen : Nat) (writeErr : Bool) (fuel : Nat) : SendOutcome :=
  if ¬(trace 0).isOpen ∧ ¬isClosed then
    .earlyZero
  else
    match drainLoop trace 0 fuel with
    | none => .suspended
    | some i =>
      .wrote i serLen true compression binary writeErr
        (if writeErr then none else some serLen)

/-! ## Connection upgrade (`httpServer.on 'upgrade'`, server_http.ts)

The handler decodes the token from the URL path; a decode failure or a
product-id mismatch both land in the `catch`, which completes the websocket
handshake, sends one `UNAUTHORIZED` response frame, and installs a handler
answering every later client message with another `UNAUTHORIZED` frame.
The authorized path hands the socket to `handleConnection`, which calls
`sessions.addSession`. -/

structure Frame where
  id : Option Int
  error : Option String
  result : Option String
  binaryFraming : Bool
  deriving DecidableEq, Repr

def unauthorizedHelloFrame : Frame :=
  { id := some (-1), error := some "UNAUTHORIZED", result := some "hello",
    binaryFraming := false }

def unauthorizedReplyFrame : Frame :=
  { id := none, error := some "UNAUTHORIZED", result := none,
    binaryFraming := false }

structure UpgradeOutcome where
  handshakeCompleted : Bool
  /-- Frames written during handshake handling itself. -/
  initialFrames : List Frame
  /-- Frame written in reply to each subsequent client message
      (`ws.onmessage` installed by the catch branch), if any. -/
  onMessageReply : Option Frame
  /-- Whether this handler closes the socket. -/
  socketClosedByServer : Bool
  /-- Whether `sessions.addSession` is invoked for this connection. -/
  addSessionCalled : Bool
  deriving DecidableEq, Repr

def unauthorizedOutcome : UpgradeOutcome :=
  { handshakeCompleted := true
    initialFrames := [unauthorizedHelloFrame]
    onMessageReply := some unauthorizedReplyFrame
    socketClosedByServer := false
    addSessionCalled := false }

/-- The `upgrade` event handler, as a function of the token decode result and
the configured `productId`. -/
def handleUpgrade (decoded : Option Token) (productId : String) : UpgradeOutcome :=
  match decoded with
  | none => unauthorizedOutcome
  | some payload =>
    if payload.workspace.productId ≠ productId then
      unauthorizedOutcome
    else
      { handshakeCompleted := true
        initialFrames := []
        onMessageReply := none
        socketClosedByServer := false
        addSessionCalled := true }

/-! ## Session-promise resolution (`handleConnection`, server_http.ts)

When `addSession` resolves, the front-end inspects the result: an
`{upgrade: true}` or `{error}` result triggers exactly one
`{id: -1, result: {state: 'upgrading', stats: upgradeInfo}}` response
(textual, uncompressed) followed by a socket close. -/

inductive AddSessionResponse where
  | active (sessionId : String) (workspaceId : String)
  | upgrade (upgradeInfo : Option Nat)
  | error (message : String)
  deriving DecidableEq, Repr

structure UpgradingResult where
  state : String
  stats : Option Nat
  deriving DecidableEq, Repr

inductive ClientAction where
  | sendResp (id : Int) (result : UpgradingResult) (binary : Bool) (compression : Bool)
  | closeSocket
  deriving DecidableEq, Repr

/-- The `.then` continuation on the `addSession` promise. -/
def handleSessionResolution : AddSessionResponse → List ClientAction
  | .active _ _ => []
  | .upgrade info =>
    [.sendResp (-1) { state := "upgrading", stats := info } false false, .closeSocket]
  | .error _ =>
    [.sendResp (-1) { state := "upgrading", stats := none } false false, .closeSocket]

/-! ## Metrics tree and `wipeStatistics` (stats.ts)

`Metrics` nodes (from `@hcengineering/core`, shaped as `wipeStatistics` uses
them) carry `operations`, `value`, `topResult`, a `measurements` record of
child `Metrics`, and a `params` record of records of `MetricsData` leaves.
The source walks this tree with a work queue, zeroing every node it visits;
`wipeMetrics` below performs the same zeroing structurally (the queue visits
exactly the nodes reachable through `measurements` and `params`, each once). -/

structure MetricsData where
  operations : Int
  value : Int
  topResult : Option String
  deriving DecidableEq, Repr

inductive Metrics where
  | mk (operations : Int) (value : Int) (topResult : Option String)
      (measurements : List (String × Metrics))
      (params : List (String × List (String × MetricsData)))
  deriving Repr

def cleanData (_ : MetricsData) : MetricsData :=
  { operations := 0, value := 0, topResult := none }

def wipeMetrics : Metrics → Metrics
  | .mk _ _ _ ms ps =>
    .mk 0 0 none
      (ms.attach.map fun kv =>
        match kv with
        | ⟨(k, m), _⟩ => (k, wipeMetrics m))
      (ps.map fun kp => (kp.1, kp.2.map fun kd => (kd.1, cleanData kd.2)))
  decreasing_by
    rename_i hmem
    have h := List.sizeOf_lt_of_mem hmem
    simp only [Prod.mk.sizeOf_spec, Metrics.mk.sizeOf_spec] at h ⊢
    omega

/-- Every counter in the tree is zeroed. -/
def metricsZeroed : Metrics → Bool
  | .mk ops v tr ms ps =>
    ops == 0 && v == 0 && tr == none &&
    ms.attach.all (fun kv =>
      match kv with
      | ⟨(_, m), _⟩ => metricsZeroed m) &&
    ps.all fun kp => kp.2.all fun kd =>
      kd.2.operations == 0 && kd.2.value == 0 && kd.2.topResult == none
  decreasing_by
    rename_i hmem
    have h := List.sizeOf_lt_of_mem hmem
    simp only [Prod.mk.sizeOf_spec, Metrics.mk.sizeOf_spec] at h ⊢
    omega

/-- The measure context: `metrics` is present exactly when the context is a
`MeasureMetricsContext` (otherwise `wipeStatistics` does nothing). -/
structure MeasureCtx where
  metrics : Option Metrics

/-- `wipeStatistics (ctx)`: zeroes the metric tree of a
`MeasureMetricsContext` and touches nothing else — its signature gives it
no access to the session manager. -/
def wipeStatisticsOp (ctx : MeasureCtx) : MeasureCtx :=
  { metrics := ctx.metrics.map wipeMetrics }

/-! ## Session manager registries and statistics (`types.ts`, `stats.ts`)

Association lists model the `Map`s; only the fields `getStatistics` reads
are carried.  The OS gauges (`memoryUsed`, `cpuUsage`, …) are reads of the
process environment and are left out of the model. -/

structure StatisticsElement where
  find : Nat
  tx : Nat
  deriving DecidableEq, Repr

structure SessionModel where
  user : String
  mins5 : StatisticsElement
  total : StatisticsElement
  current : StatisticsElement
  upgradeClient : Bool
  deriving DecidableEq, Repr

/-- `socket.data()`: the immutable metadata record captured at handshake. -/
structure SocketModel where
  data : List (String × String)
  deriving DecidableEq, Repr

structure SessionEntry where
  session : SessionModel
  socket : SocketModel
  deriving DecidableEq, Repr

structure WorkspaceModel where
  sessions : List (String × SessionEntry)
  workspaceName : String
  wsIdStr : String
  upgrade : Bool
  /-- `closing !== undefined`. -/
  closingSet : Bool
  deriving DecidableEq, Repr

structure SessionManagerModel where
  workspaces : List (String × WorkspaceModel)
  sessions : List (String × SessionEntry)
  deriving DecidableEq, Repr

/-- One element of `activeSessions[k].sessions` in `getStatistics`. -/
structure SessionStat where
  userId : String
  data : List (String × String)
  mins5 : StatisticsElement
  total : StatisticsElement
  current : StatisticsElement
  upgrade : Bool
  deriving DecidableEq, Repr

/-- One `activeSessions[k]` entry in `getStatistics`. -/
structure WorkspaceStat where
  sessions : List SessionStat
  name : String
  wsId : String
  sessionsTotal : Nat
  upgrading : Bool
  closing : Bool
  deriving DecidableEq, Repr

structure StatsData where
  activeSessions : List (String × WorkspaceStat)
  totalClients : Nat
  deriving DecidableEq, Repr

def workspaceBreakdown (vv : WorkspaceModel) : WorkspaceStat :=
  { sessions := vv.sessions.map fun kv =>
      { userId := kv.2.session.user
        data := kv.2.socket.data
        mins5 := kv.2.session.mins5
        total := kv.2.session.total
        current := kv.2.session.current
        upgrade := kv.2.session.upgradeClient }
    name := vv.workspaceName
    wsId := vv.wsIdStr
    sessionsTotal := vv.sessions.length
    upgrading := vv.upgrade
    closing := vv.closingSet }

/-- `getStatistics (ctx, sessions, admin)` (stats.ts): the per-workspace
breakdown is built only under `if admin`. -/
def getStatistics (sm : SessionManagerModel) (admin : Bool) : StatsData :=
  { activeSessions :=
      if admin then sm.workspaces.map fun kv => (kv.1, workspaceBreakdown kv.2)
      else []
    totalClients := sm.sessions.length }

/-- `GET /api/v1/statistics`: `decodeToken` throwing lands in the catch
(404, empty body); otherwise 200 with the statistics JSON. -/
def statisticsHandler (decoded : Option Token) (sm : SessionManagerModel) :
    Nat × Option (StatsData × Bool) :=
  match decoded with
  | none => (404, none)
  | some payload =>
    let admin := payload.isAdmin
    (200, some (getStatistics sm admin, admin))

/-! ## PUT /api/v1/manage (server_http.ts) -/

/-- A `StrWhiteSpaceChar` of ECMAScript `parseInt`: WhiteSpace (TAB, VT, FF,
SP, NBSP, ZWNBSP and the Unicode Zs code points) together with the line
terminators LF, CR, LS, PS. -/
def isJsWhitespace (c : Char) : Bool :=
  c = '\u0009' ∨ c = '\u000a' ∨ c = '\u000b' ∨ c = '\u000c' ∨ c = '\u000d' ∨
  c = '\u0020' ∨ c = '\u00a0' ∨ c = '\u1680' ∨
  (0x2000 ≤ c.toNat ∧ c.toNat ≤ 0x200a) ∨
  c = '\u2028' ∨ c = '\u2029' ∨ c = '\u202f' ∨ c = '\u205f' ∨
  c = '\u3000' ∨ c = '\ufeff'

/-- Value of a radix-16 digit, `none` for any other character. -/
def hexDigitVal (c : Char) : Option Nat :=
  if '0' ≤ c ∧ c ≤ '9' then some (c.toNat - '0'.toNat)
  else if 'a' ≤ c ∧ c ≤ 'f' then some (c.toNat - 'a'.toNat + 10)
  else if 'A' ≤ c ∧ c ≤ 'F' then some (c.toNat - 'A'.toNat + 10)
  else none

/-- Value of a radix-10 digit, `none` for any other character. -/
def decDigitVal (c : Char) : Option Nat :=
  if '0' ≤ c ∧ c ≤ '9' then some (c.toNat - '0'.toNat) else none

/-- Longest prefix of digits of the given radix, as digit values. -/
def radixDigits (digVal : Char → Option Nat) : List Char → List Nat
  | [] => []
  | c :: cs =>
    match digVal c with
    | some d => d :: radixDigits digVal cs
    | none => []

def digitsValR (radix : Nat) (ds : List Nat) : Nat :=
  ds.foldl (fun acc d => acc * radix + d) 0

/-- Binary logarithm by structural descent on `fuel`; exact whenever
`fuel ≥ Nat.log2 n` (kernel-computable, unlike `Nat.log2`). -/
def log2Aux : Nat → Nat → Nat
  | 0, _ => 0
  | fuel + 1, n => if 2 ≤ n then log2Aux fuel (n / 2) + 1 else 0

/-- Round a nonnegative integer to the nearest IEEE-754 binary64 value
(round half to even), as ECMAScript ToNumber does for `parseInt`'s
mathematical result; `none` when the value rounds up to `2^1024`, i.e.
overflows to infinity.  `fuel` must be at least `Nat.log2 m`; callers pass a
bound derived from the digit count. -/
def roundNatToDouble (fuel m : Nat) : Option Nat :=
  if m ≤ 2 ^ 53 then some m
  else
    let k := log2Aux fuel m + 1 - 53
    let q := m / 2 ^ k
    let r := m % 2 ^ k
    let half := 2 ^ (k - 1)
    let rounded := (if r > half ∨ (r = half ∧ q % 2 = 1) then q + 1 else q) * 2 ^ k
    if rounded ≥ 2 ^ 1024 then none else some rounded

/-- A JavaScript number as `parseInt` can produce one: `NaN`, an infinity,
or an integer-valued finite double.  (The ECMAScript `-0` result for
inputs like `"-0"` is identified with `0` here.) -/
inductive JsNum where
  | nan
  | posInf
  | negInf
  | int (n : Int)
  deriving DecidableEq, Repr

/-- ECMAScript `parseInt(s)` with the radix argument undefined: strip
leading `StrWhiteSpaceChar`s, read an optional sign, switch to radix 16 on a
`0x`/`0X` prefix (radix 10 otherwise), take the longest prefix of radix
digits (`NaN` when it is empty), and convert the resulting mathematical
integer to a double. -/
def parseIntJS (s : String) : JsNum :=
  let t := s.toList.dropWhile isJsWhitespace
  let (neg, rest) :=
    match t with
    | '-' :: r => (true, r)
    | '+' :: r => (false, r)
    | r => (false, r)
  let (radix, body) :=
    match rest with
    | '0' :: 'x' :: r => (16, r)
    | '0' :: 'X' :: r => (16, r)
    | r => (10, r)
  let ds :=
    if radix = 16 then radixDigits hexDigitVal body else radixDigits decDigitVal body
  if ds.isEmpty then .nan
  else
    match roundNatToDouble (4 * ds.length + 4) (digitsValR radix ds) with
    | none => if neg then .negInf else .posInf
    | some v => .int (if neg then -(v : Int) else (v : Int))

/-- Side effects the manage handler can request. `scheduleMaintenance`
receives whatever number `parseInt` produced (possibly `NaN`). -/
inductive ManageOp where
  | scheduleMaintenance (timeMinutes : JsNum)
  | wipeStatistics
  | forceClose (wsId : Option String)
  | processExit (code : Nat)
  deriving DecidableEq, Repr

structure ManageOutcome where
  /-- HTTP status written; `none` when `process.exit` fires first. -/
  status : Option Nat
  ops : List ManageOp
  deriving DecidableEq, Repr

/-- `PUT /api/v1/manage`: decode failure or a non-admin token give 404 with
no operation; then the `switch (operation)`. -/
def manageHandler (decoded : Option Token) (operation : Option String)
    (timeout : Option String) (wsId : Option String) : ManageOutcome :=
  match decoded with
  | none => { status := some 404, ops := [] }
  | some payload =>
    if ¬payload.isAdmin then
      { status := some 404, ops := [] }
    else
      match operation with
      | some "maintenance" =>
        { status := some 200
          ops := [.scheduleMaintenance (parseIntJS (timeout.getD "5"))] }
      | some "wipe-statistics" =>
        { status := some 200, ops := [.wipeStatistics] }
      | some "force-close" =>
        { status := some 200, ops := [.forceClose wsId] }
      | some "reboot" =>
        { status := none, ops := [.processExit 0] }
      | _ => { status := some 404, ops := [] }

/-! ## Server state for the wipe-statistics operation -/

/-- The state the `wipe-statistics` admin operation runs against: the measure
context and the session-manager registries. -/
structure ServerState where
  ctx : MeasureCtx
  manager : SessionManagerModel

/-- The `wipe-statistics` branch of the manage handler: it calls
`wipeStatistics (ctx)` and nothing else. -/
def applyWipe (st : ServerState) : ServerState :=
  { st with ctx := wipeStatisticsOp st.ctx }

/-! ## Concrete inputs used by witnesses -/

def tokenAdmin : Token :=
  { email := "admin@example.com"
    workspace := { name := "ws1", productId := "prod" }
    extra := some { admin := some "true", mode := none, model := none } }

def tokenPlain : Token :=
  { email := "user@example.com"
    workspace := { name := "ws1", productId := "prod" }
    extra := none }

/-- Transport trace: buffered above threshold for two ticks, then drained. -/
def drainTrace : Nat → WsObs := fun j => ⟨true, if j < 2 then 200 else 0⟩

def metricsExample : Metrics :=
  .mk 3 7 (some "t")
    [("child", .mk 1 2 none [] [("p", [("x", ⟨4, 5, some "r"⟩)])])]
    [("q", [("y", ⟨6, 8, none⟩)])]

def serverStateExample : ServerState :=
  { ctx := { metrics := some metricsExample }
    manager :=
      { workspaces :=
          [("w1", { sessions := [("s1", { session := ⟨"u@example.com", ⟨0, 1⟩, ⟨2, 3⟩, ⟨4, 5⟩, false⟩,
                                          socket := ⟨[("remoteAddress", "127.0.0.1")]⟩ })]
                    workspaceName := "W1", wsIdStr := "w1", upgrade := false, closingSet := false })]
        sessions := [("s1", { session := ⟨"u@example.com", ⟨0, 1⟩, ⟨2, 3⟩, ⟨4, 5⟩, false⟩,
                              socket := ⟨[("remoteAddress", "127.0.0.1")]⟩ })] } }

/-! ## Helper lemmas -/

/-- The backpressure loop exits precisely at the first tick at which the
continuation condition (`bufferedAmount > 128` and the transport still open)
fails; every earlier tick satisfied the condition (and hence yielded). -/
theorem drainLoop_spec (trace : Nat → WsObs) :
    ∀ fuel i k, drainLoop trace i fuel = some k →
      i ≤ k ∧ ¬((trace k).bufferedAmount > 128 ∧ (trace k).isOpen = true) ∧
      ∀ j, i ≤ j → j < k → (trace j).bufferedAmount > 128 ∧ (trace j).isOpen = true := by
  intro fuel
  induction fuel with
  | zero => intro i k h; simp [drainLoop] at h
  | succ n ih =>
    intro i k h
    rw [drainLoop] at h
    split at h
    · rename_i hc
      obtain ⟨h1, h2, h3⟩ := ih (i + 1) k h
      refine ⟨by omega, h2, ?_⟩
      intro j hij hjk
      rcases Nat.eq_or_lt_of_le hij with rfl | hlt
      · exact ⟨hc.1, hc.2⟩
      · exact h3 j hlt hjk
    · rename_i hc
      cases h
      exact ⟨le_refl _, by simpa using hc, fun j hij hjk => absurd hjk (by omega)⟩

/-- `wipeMetrics` zeroes every counter reachable in the metrics tree. -/
theorem metricsZeroed_wipeMetrics (m : Metrics) : metricsZeroed (wipeMetrics m) = true := by
  induction m using wipeMetrics.induct with
  | _ ops v tr ms ps ih =>
    rw [wipeMetrics, metricsZeroed]
    simp only [Bool.and_eq_true, List.all_eq_true, List.mem_attach, beq_iff_eq, List.all_map,
      List.attach_map_coe]
    refine ⟨⟨⟨⟨trivial, trivial⟩, trivial⟩, ?_⟩, ?_⟩
    · rintro ⟨x, hx⟩ -
      simp only [List.mem_map, List.mem_attach, true_and] at hx
      obtain ⟨⟨⟨k, mm⟩, hm⟩, rfl⟩ := hx
      exact ih k mm hm
    · intro x hx
      simp [cleanData, Function.comp]

/-! ## Claim theorems -/

/-- C1: `ConnectionSocket.send` never returns while the transport's
buffered-write count exceeds the 128-byte threshold: on a transport that is
open at entry, whenever `send` reaches the transport write at tick `i`, the
buffer at tick `i` has drained to at most 128 bytes or the transport is no
longer open, and at every earlier tick the buffer exceeded 128 bytes with the
transport open — so the call was still yielding cooperatively there. -/
theorem send_backpressure (isClosed : Bool) (trace : Nat → WsObs)
    (binary compression : Bool) (serLen : Nat) (writeErr : Bool) (fuel : Nat)
    (i metric : Nat) (fb c sb rej : Bool) (ret : Option Nat)
    (hopen : (trace 0).isOpen = true)
    (h : send isClosed trace binary compression serLen writeErr fuel =
      .wrote i metric fb c sb rej ret) :
    ((trace i).bufferedAmount ≤ 128 ∨ (trace i).isOpen = false) ∧
    ∀ j < i, (trace j).bufferedAmount > 128 ∧ (trace j).isOpen = true := by
  unfold send at h
  split at h
  · simp at h
  · cases hd : drainLoop trace 0 fuel with
    | none => rw [hd] at h; simp at h
    | some k =>
      rw [hd] at h
      injection h with h_i h_m h_fb h_c h_sb h_rej h_ret
      subst h_i
      obtain ⟨-, h2, h3⟩ := drainLoop_spec trace fuel 0 k hd
      refine ⟨?_, fun j hj => h3 j (Nat.zero_le j) hj⟩
      rcases Nat.lt_or_ge 128 (trace k).bufferedAmount with hgt | hle
      · right
        cases hko : (trace k).isOpen
        · rfl
        · exact absurd ⟨hgt, hko⟩ h2
      · left; exact hle

/-- Witness for C1 on a concrete trace that drains after two ticks. -/
theorem send_backpressure_witness :
    (drainTrace 0).isOpen = true ∧
    send false drainTrace false false 7 false 5 =
      .wrote 2 7 true false false false (some 7) ∧
    (((drainTrace 2).bufferedAmount ≤ 128 ∨ (drainTrace 2).isOpen = false) ∧
      ∀ j < 2, (drainTrace j).bufferedAmount > 128 ∧ (drainTrace j).isOpen = true) :=
  ⟨by decide, by decide,
    send_backpressure false drainTrace false false 7 false 5 2 7 true false false false
      (some 7) (by decide) (by decide)⟩

/-- C2 counterexample: with the transport not open and the socket marked
closed (`isClosed = true`), `send` does **not** return 0 immediately — it
serializes, records the `send-data` metric and attempts the transport write.
The early return fires only when `isClosed = false`. -/
theorem send_earlyReturn_counterexample :
    send true (fun _ => ⟨false, 0⟩) false false 5 false 1 =
      .wrote 0 5 true false false false (some 5) ∧
    send true (fun _ => ⟨false, 0⟩) false false 5 false 1 ≠ .earlyZero := by
  constructor
  · decide
  · decide

/-- C2 (amended): `send` returns 0 immediately — without serializing the
message, recording a metric, or attempting a transport write — exactly when
the transport is not in the OPEN state and the socket is **not** marked
closed (`isClosed = false`). -/
theorem send_earlyReturn (isClosed : Bool) (trace : Nat → WsObs)
    (binary compression : Bool) (serLen : Nat) (writeErr : Bool) (fuel : Nat) :
    send isClosed trace binary compression serLen writeErr fuel = .earlyZero ↔
      ((trace 0).isOpen = false ∧ isClosed = false) := by
  unfold send
  split
  · rename_i hc
    simp only [Bool.not_eq_true] at hc
    simp [hc.1, hc.2]
  · rename_i hc
    constructor
    · intro h
      split at h <;> simp_all
    · rintro ⟨h1, h2⟩
      exact absurd ⟨by simp [h1], by simp [h2]⟩ hc

/-- Witness for C2 (amended) at a concrete closed-transport input. -/
theorem send_earlyReturn_witness :
    send false (fun _ => ⟨false, 0⟩) true true 9 false 3 = .earlyZero :=
  (send_earlyReturn false (fun _ => ⟨false, 0⟩) true true 9 false 3).mpr ⟨rfl, rfl⟩

/-- C3 counterexample: on a token that fails to decode, the handler does not
close the socket (it stays open, an `onmessage` reply handler is installed),
contrary to the claim that the socket is then closed. -/
theorem badToken_close_counterexample :
    (handleUpgrade none "product-1").socketClosedByServer = false ∧
    (handleUpgrade none "product-1").onMessageReply = some unauthorizedReplyFrame ∧
    (handleUpgrade none "product-1").addSessionCalled = false := by
  decide

/-- C3 (amended): for every connection-upgrade request whose token fails to
decode, the handshake is still completed, exactly one `UNAUTHORIZED`
response frame is sent at handshake time, no Workspace is created
(`addSession` is never invoked), and the socket is left open by the server —
each subsequent client message is answered with another `UNAUTHORIZED`
frame instead of being closed. -/
theorem badToken_unauthorized (productId : String) :
    handleUpgrade none productId = unauthorizedOutcome ∧
    unauthorizedOutcome.handshakeCompleted = true ∧
    unauthorizedOutcome.initialFrames = [unauthorizedHelloFrame] ∧
    unauthorizedHelloFrame.error = some "UNAUTHORIZED" ∧
    unauthorizedOutcome.addSessionCalled = false ∧
    unauthorizedOutcome.socketClosedByServer = false ∧
    unauthorizedOutcome.onMessageReply = some unauthorizedReplyFrame :=
  ⟨rfl, rfl, rfl, rfl, rfl, rfl, rfl⟩

/-- C4: manage endpoint authorization and dispatch: a token that fails to
decode, or one without `extra.admin = 'true'`, yields 404 with no operation
executed; an unknown operation yields 404 with no operation; and
`operation=reboot` with an admin token terminates the process with exit
code 0 (no HTTP status is written). -/
theorem manageHandler_auth :
    (∀ (op timeout wsId : Option String),
      manageHandler none op timeout wsId = { status := some 404, ops := [] }) ∧
    (∀ (payload : Token) (op timeout wsId : Option String), payload.isAdmin = false →
      manageHandler (some payload) op timeout wsId = { status := some 404, ops := [] }) ∧
    (∀ (payload : Token) (op timeout wsId : Option String), payload.isAdmin = true →
      op ≠ some "maintenance" → op ≠ some "wipe-statistics" →
      op ≠ some "force-close" → op ≠ some "reboot" →
      manageHandler (some payload) op timeout wsId = { status := some 404, ops := [] }) ∧
    (∀ (payload : Token) (timeout wsId : Option String), payload.isAdmin = true →
      manageHandler (some payload) (some "reboot") timeout wsId =
        { status := none, ops := [.processExit 0] }) := by
  refine ⟨fun op timeout wsId => rfl, ?_, ?_, ?_⟩
  · intro payload op timeout wsId hadm
    simp [manageHandler, hadm]
  · intro payload op timeout wsId hadm h1 h2 h3 h4
    simp only [manageHandler, hadm, Bool.not_eq_true, Bool.true_eq_false, if_false]
    split <;> simp_all
  · intro payload timeout wsId hadm
    simp [manageHandler, hadm]

/-- Witness for C4 at concrete tokens and operations. -/
theorem manageHandler_auth_witness :
    manageHandler none (some "reboot") none none = { status := some 404, ops := [] } ∧
    manageHandler (some tokenPlain) (some "reboot") none none =
      { status := some 404, ops := [] } ∧
    manageHandler (some tokenAdmin) (some "restart") none none =
      { status := some 404, ops := [] } ∧
    manageHandler (some tokenAdmin) (some "reboot") none none =
      { status := none, ops := [.processExit 0] } :=
  ⟨manageHandler_auth.1 (some "reboot") none none,
    manageHandler_auth.2.1 tokenPlain (some "reboot") none none (by decide),
    manageHandler_auth.2.2.1 tokenAdmin (some "restart") none none (by decide)
      (by decide) (by decide) (by decide) (by decide),
    manageHandler_auth.2.2.2 tokenAdmin none none (by decide)⟩

/-- C5: a statistics request whose token fails to decode gets 404 with an
empty body; a decoding token gets 200, and the per-workspace breakdown
(per-session user id, socket data, counters, upgrade and closing flags, via
`workspaceBreakdown`) is included exactly when the token carries
`extra.admin = 'true'`, otherwise `activeSessions` stays empty. -/
theorem statisticsHandler_admin_gate (t : Token) (sm : SessionManagerModel) :
    statisticsHandler none sm = (404, none) ∧
    statisticsHandler (some t) sm = (200, some (getStatistics sm t.isAdmin, t.isAdmin)) ∧
    (getStatistics sm t.isAdmin).activeSessions =
      (if t.isAdmin = true then sm.workspaces.map (fun kv => (kv.1, workspaceBreakdown kv.2))
       else []) ∧
    ((getStatistics sm t.isAdmin).activeSessions ≠ [] ↔
      (t.isAdmin = true ∧ sm.workspaces ≠ [])) := by
  refine ⟨rfl, rfl, ?_, ?_⟩
  · cases t.isAdmin <;> simp [getStatistics]
  · cases ht : t.isAdmin <;> simp [getStatistics, ht]

/-- C6: a token that decodes but whose `workspace.productId` differs from the
configured product id is rejected through the unauthorized path:
`addSession` is never invoked and the client receives the `UNAUTHORIZED`
response frame. -/
theorem productMismatch_unauthorized (payload : Token) (productId : String)
    (h : payload.workspace.productId ≠ productId) :
    handleUpgrade (some payload) productId = unauthorizedOutcome ∧
    (handleUpgrade (some payload) productId).addSessionCalled = false ∧
    (handleUpgrade (some payload) productId).initialFrames = [unauthorizedHelloFrame] ∧
    unauthorizedHelloFrame.error = some "UNAUTHORIZED" := by
  have he : handleUpgrade (some payload) productId = unauthorizedOutcome := by
    simp [handleUpgrade, h]
  exact ⟨he, by rw [he]; rfl, by rw [he]; rfl, rfl⟩

/-- Witness for C6 at a concrete token whose product id differs. -/
theorem productMismatch_unauthorized_witness :
    handleUpgrade (some tokenPlain) "other-product" = unauthorizedOutcome ∧
    (handleUpgrade (some tokenPlain) "other-product").addSessionCalled = false ∧
    (handleUpgrade (some tokenPlain) "other-product").initialFrames =
      [unauthorizedHelloFrame] ∧
    unauthorizedHelloFrame.error = some "UNAUTHORIZED" :=
  productMismatch_unauthorized tokenPlain "other-product" (by decide)

/-- C7 counterexample: a send with the `binary` argument `false` that reaches
the transport write still writes the frame with binary framing
(`{binary: true}` is hard-coded at the write), so framing does not follow
the session's binary flag. -/
theorem send_framing_counterexample :
    send false (fun _ => ⟨true, 0⟩) false true 9 false 1 =
      .wrote 0 9 true true false false (some 9) := by
  decide

/-- C7 (amended): every frame that reaches the transport write is written
with binary framing regardless of the `binary` argument; the `binary`
argument selects only the serialization format (and `compression` is passed
through to the write options). -/
theorem send_framing (isClosed : Bool) (trace : Nat → WsObs)
    (binary compression : Bool) (serLen : Nat) (writeErr : Bool) (fuel : Nat)
    (i metric : Nat) (fb c sb rej : Bool) (ret : Option Nat)
    (h : send isClosed trace binary compression serLen writeErr fuel =
      .wrote i metric fb c sb rej ret) :
    fb = true ∧ sb = binary ∧ c = compression ∧ metric = serLen := by
  unfold send at h
  split at h
  · simp at h
  · cases hd : drainLoop trace 0 fuel with
    | none => rw [hd] at h; simp at h
    | some k =>
      rw [hd] at h
      injection h with h_i h_m h_fb h_c h_sb h_rej h_ret
      exact ⟨h_fb.symm, h_sb.symm, h_c.symm, h_m.symm⟩

/-- Witness for C7 (amended) at a concrete textual-serialization send. -/
theorem send_framing_witness :
    send false (fun _ => ⟨true, 0⟩) false true 9 false 1 =
      .wrote 0 9 true true false false (some 9) ∧
    (true = true ∧ false = false ∧ true = true ∧ (9 : Nat) = 9) :=
  ⟨by decide,
    send_framing false (fun _ => ⟨true, 0⟩) false true 9 false 1 0 9 true true false false
      (some 9) (by decide)⟩

/-- C8: the wipe-statistics operation zeroes every metric counter
(`operations`, `value`, `topResult`) reachable from the measure context and
leaves the session-manager registries (workspaces map, flat sessions index,
and hence every session's membership) untouched; a context that is not a
`MeasureMetricsContext` is left entirely unchanged. -/
theorem wipeStatistics_frame (st : ServerState) :
    (applyWipe st).manager = st.manager ∧
    (applyWipe st).manager.workspaces = st.manager.workspaces ∧
    (applyWipe st).manager.sessions = st.manager.sessions ∧
    (∀ m, st.ctx.metrics = some m →
      (applyWipe st).ctx.metrics = some (wipeMetrics m) ∧
      metricsZeroed (wipeMetrics m) = true) ∧
    (st.ctx.metrics = none → applyWipe st = st) := by
  refine ⟨rfl, rfl, rfl, ?_, ?_⟩
  · intro m hm
    refine ⟨?_, metricsZeroed_wipeMetrics m⟩
    simp [applyWipe, wipeStatisticsOp, hm]
  · intro hm
    obtain ⟨⟨mtr⟩, mgr⟩ := st
    simp only [MeasureCtx.metrics] at hm
    subst hm
    rfl

/-- Witness for C8 on a concrete two-level metrics tree and a one-session
registry. -/
theorem wipeStatistics_frame_witness :
    (applyWipe serverStateExample).manager = serverStateExample.manager ∧
    ((applyWipe serverStateExample).ctx.metrics = some (wipeMetrics metricsExample) ∧
      metricsZeroed (wipeMetrics metricsExample) = true) :=
  ⟨(wipeStatistics_frame serverStateExample).1,
    (wipeStatistics_frame serverStateExample).2.2.2.1 metricsExample rfl⟩

/-- C9: when `addSession` resolves to `{upgrade: true}` or to `{error}`, the
front-end sends exactly one response with `id = -1` and
`result.state = 'upgrading'` (textual, uncompressed) and then closes the
socket; an active result triggers neither; and the error outcome is
byte-identical to an upgrade outcome without stats payload — the two differ
on the wire only in the optional stats payload. -/
theorem sessionResolution_upgrading (info : Option Nat) (msg sid wid : String) :
    handleSessionResolution (.upgrade info) =
      [.sendResp (-1) { state := "upgrading", stats := info } false false, .closeSocket] ∧
    handleSessionResolution (.error msg) =
      [.sendResp (-1) { state := "upgrading", stats := none } false false, .closeSocket] ∧
    handleSessionResolution (.active sid wid) = [] ∧
    handleSessionResolution (.error msg) = handleSessionResolution (.upgrade none) :=
  ⟨rfl, rfl, rfl, rfl⟩

/-- C10: with an admin token and `operation=maintenance`, an absent `timeout`
query parameter schedules maintenance with the default of 5 minutes
(`parseInt('5')`); a present `timeout` passes `parseInt(timeout)` instead —
in particular, whenever `parseInt` yields an integer `n`, `scheduleMaintenance`
receives exactly `n`. -/
theorem maintenance_timeout_default (payload : Token) (wsId : Option String)
    (hadm : payload.isAdmin = true) :
    manageHandler (some payload) (some "maintenance") none wsId =
      { status := some 200, ops := [.scheduleMaintenance (.int 5)] } ∧
    (∀ (t : String),
      manageHandler (some payload) (some "maintenance") (some t) wsId =
        { status := some 200, ops := [.scheduleMaintenance (parseIntJS t)] }) ∧
    ∀ (t : String) (n : Int), parseIntJS t = .int n →
      manageHandler (some payload) (some "maintenance") (some t) wsId =
        { status := some 200, ops := [.scheduleMaintenance (.int n)] } := by
  refine ⟨?_, ?_, ?_⟩
  · have h5 : parseIntJS "5" = .int 5 := by decide
    simp [manageHandler, hadm, h5]
  · intro t
    simp [manageHandler, hadm]
  · intro t n h
    simp [manageHandler, hadm, h]

/-- Witness for C10 with the admin token: without a timeout, with the decimal
`timeout=7`, and with the hex-prefixed `timeout=0x10` (which JS `parseInt`
reads in radix 16 as 16). -/
theorem maintenance_timeout_default_witness :
    manageHandler (some tokenAdmin) (some "maintenance") none none =
      { status := some 200, ops := [.scheduleMaintenance (.int 5)] } ∧
    manageHandler (some tokenAdmin) (some "maintenance") (some "7") none =
      { status := some 200, ops := [.scheduleMaintenance (.int 7)] } ∧
    manageHandler (some tokenAdmin) (some "maintenance") (some "0x10") none =
      { status := some 200, ops := [.scheduleMaintenance (.int 16)] } :=
  ⟨(maintenance_timeout_default tokenAdmin none (by decide)).1,
    (maintenance_timeout_default tokenAdmin none (by decide)).2.2 "7" 7 (by decide),
    (maintenance_timeout_default tokenAdmin none (by decide)).2.2 "0x10" 16 (by decide)⟩

end Gateway
